import Mathlib

/-
Verification of the Cricket-Fiesta backend core: tournament engine
(match generation, standings updates) and the approval-gated
authentication flows (Google sign-in, OTP request/verify/resend,
admin password login, login-request / principal approval).

Each definition is a shallow embedding of the corresponding Express
route handler / Prisma query from the repository sources.  Machine
integers are modelled as Nat / Int (timestamps in milliseconds),
fallible handlers return `Except AppError`, and the database tables
are explicit Lean lists threaded through the handlers.
-/

namespace CricketFiesta

/-- `AppError(message, statusCode)` thrown by route handlers. -/
structure AppError where
  message : String
  statusCode : Nat
deriving DecidableEq, Repr

/-- Tournament type strings the generator branches on
(`LEAGUE`, `ROUND_ROBIN`, `KNOCKOUT`); `OTHER` stands for any other value,
for which the generator emits no pairings. -/
inductive TournamentType
  | LEAGUE
  | ROUND_ROBIN
  | KNOCKOUT
  | OTHER
deriving DecidableEq, Repr

/-- Match status enum (`UPCOMING` is the creation default). -/
inductive MatchStatus
  | UPCOMING
  | LIVE
  | COMPLETED
deriving DecidableEq, Repr

/-- Prisma `Tournament` row (fields the generator reads). -/
structure Tournament where
  id : Nat
  ttype : TournamentType
  format : String
  startDate : Int
deriving DecidableEq, Repr

/-- Prisma `TournamentStanding` row. -/
structure TournamentStanding where
  id : Nat
  tournamentId : Nat
  teamId : Nat
  matchesPlayed : Nat
  wins : Nat
  losses : Nat
  points : Nat
deriving DecidableEq, Repr

/-- Prisma `Match` row (fields used by the tournament routes).
Timestamps are epoch milliseconds. -/
structure Match where
  id : Nat
  matchNumber : Nat
  matchType : String
  tournamentId : Option Nat
  homeTeamId : Nat
  awayTeamId : Nat
  scheduledTime : Int
  venue : String
  overs : Nat
  status : MatchStatus
  winnerId : Option Nat
  round : Option String
deriving DecidableEq, Repr

/-- JavaScript `a || b` on strings (empty string is falsy). -/
def strOr (a b : String) : String := if a = "" then b else a

/-! ## Match generation (POST /:id/generate-matches, part_007 lines 263-352) -/

/-- A home/away pairing pushed onto `matches` before the scheduling loop. -/
structure GeneratedPairing where
  homeTeamId : Nat
  awayTeamId : Nat
  round : Option String
deriving DecidableEq, Repr

/-- The round-robin nested loops:
`for i in 0..n: for j in i+1..n: push (teams[i], teams[j])`. -/
def roundRobinPairs : List Nat → List (Nat × Nat)
  | [] => []
  | t :: rest => (rest.map fun u => (t, u)) ++ roundRobinPairs rest

/-- The knockout loop: `for i in 0, 2, 4, ...: if i+1 < n: push (teams[i], teams[i+1])`. -/
def knockoutPairs : List Nat → List (Nat × Nat)
  | [] => []
  | [_] => []
  | a :: b :: rest => (a, b) :: knockoutPairs rest

/-- The ternary chain mapping rounds to the labels Final / Semi Final /
Quarter Final / Round of 2^rounds, where rounds = ceil(log2(n)). -/
def roundLabel (rounds : Nat) : String :=
  if rounds = 1 then "Final"
  else if rounds = 2 then "Semi Final"
  else if rounds = 3 then "Quarter Final"
  else "Round of " ++ toString (2 ^ rounds)

/-- Pairings generated for a tournament type from the team list
(in standings insertion order). -/
def tournamentPairings (ttype : TournamentType) (teams : List Nat) :
    List GeneratedPairing :=
  match ttype with
  | .LEAGUE | .ROUND_ROBIN =>
      (roundRobinPairs teams).map fun p => ⟨p.1, p.2, none⟩
  | .KNOCKOUT =>
      let rounds := Nat.clog 2 teams.length
      (knockoutPairs teams).map fun p => ⟨p.1, p.2, some (roundLabel rounds)⟩
  | .OTHER => []

/-- `matchInterval || 180` (0 / absent fall back to the 3-hour default). -/
def effectiveInterval : Option Int → Int
  | none => 180
  | some v => if v = 0 then 180 else v

/-- The fallback `venue || "TBD"`. -/
def effectiveVenue : Option String → String
  | none => "TBD"
  | some v => strOr v "TBD"

/-- Overs from the format code: T10 gives 10, T15 gives 15, anything else 20. -/
def oversForFormat (format : String) : Nat :=
  if format = "T10" then 10 else if format = "T15" then 15 else 20

/-- Request body of POST /:id/generate-matches. -/
structure GenerateParams where
  venue : Option String
  startTime : Option Int
  matchInterval : Option Int
deriving DecidableEq, Repr

/-- One iteration of the creation loop: the row `prisma.match.create` inserts
for pairing `pr` at loop index `i` with running number `matchNumber`
(the database-assigned row id is not modelled and is set to the match number). -/
def mkGeneratedMatch (t : Tournament) (venue : String) (baseTime interval : Int)
    (matchNumber i : Nat) (pr : GeneratedPairing) : Match :=
  { id := matchNumber
    matchNumber := matchNumber
    matchType := t.format
    tournamentId := some t.id
    homeTeamId := pr.homeTeamId
    awayTeamId := pr.awayTeamId
    scheduledTime := baseTime + (i : Int) * interval * 60000
    venue := venue
    overs := oversForFormat t.format
    status := .UPCOMING
    winnerId := none
    round := pr.round }

/-- The creation loop (`for i ...: scheduledTime = base + i*interval*60000;
create({matchNumber, ...}); matchNumber++`). -/
def scheduleLoop (t : Tournament) (venue : String) (baseTime interval : Int) :
    List GeneratedPairing → Nat → Nat → List Match
  | [], _, _ => []
  | pr :: rest, matchNumber, i =>
      mkGeneratedMatch t venue baseTime interval matchNumber i pr ::
        scheduleLoop t venue baseTime interval rest (matchNumber + 1) (i + 1)

/-- POST /:id/generate-matches.  `existing` is the full `Match` table
(`prisma.match.count()` seeds the first match number),
`standings` the standings rows of the tournament in insertion order. -/
def generateMatches (t : Tournament) (standings : List TournamentStanding)
    (existing : List Match) (p : GenerateParams) : Except AppError (List Match) :=
  if standings.length < 2 then
    .error ⟨"At least 2 teams required to generate matches", 400⟩
  else
    let teams := standings.map (·.teamId)
    let pairings := tournamentPairings t.ttype teams
    let baseTime := p.startTime.getD t.startDate
    let interval := effectiveInterval p.matchInterval
    .ok (scheduleLoop t (effectiveVenue p.venue) baseTime interval pairings
      (existing.length + 1) 0)

/-- POST / on the match router (part_003 lines 86-155): next match number is
`(lastMatch?.matchNumber || 0) + 1` where `lastMatch` is the row with the
greatest `matchNumber`. -/
def maxMatchNumber (existing : List Match) : Nat :=
  existing.foldr (fun m acc => max m.matchNumber acc) 0

/-- Match number assigned by the single-match create route. -/
def createMatchNumber (existing : List Match) : Nat :=
  maxMatchNumber existing + 1

/-! ## Standings update (POST /:id/update-standings, part_007 lines 354-421) -/

/-- Winner increment: `matchesPlayed+1, wins+1, points+2`. -/
def bumpWinner (s : TournamentStanding) : TournamentStanding :=
  { s with matchesPlayed := s.matchesPlayed + 1, wins := s.wins + 1,
           points := s.points + 2 }

/-- Loser increment: `matchesPlayed+1, losses+1`. -/
def bumpLoser (s : TournamentStanding) : TournamentStanding :=
  { s with matchesPlayed := s.matchesPlayed + 1, losses := s.losses + 1 }

/-- `prisma.tournamentStanding.findFirst({where: {tournamentId, teamId}})`. -/
def findStanding (standings : List TournamentStanding) (tid teamId : Nat) :
    Option TournamentStanding :=
  standings.find? fun s => s.tournamentId == tid && s.teamId == teamId

/-- `prisma.tournamentStanding.update({where: {id}, data: ...})`. -/
def updateById (standings : List TournamentStanding) (rowId : Nat)
    (f : TournamentStanding → TournamentStanding) : List TournamentStanding :=
  standings.map fun s => if s.id == rowId then f s else s

/-- The combined guard: match found, winner declared, status COMPLETED. -/
def matchReady (matchTable : List Match) (matchId : Nat) : Option (Match × Nat) :=
  match matchTable.find? (fun m => m.id == matchId) with
  | none => none
  | some m =>
      match m.winnerId with
      | none => none
      | some w => if m.status = .COMPLETED then some (m, w) else none

/-- POST /:id/update-standings: guard, then the winner update followed by the
loser update (each a separate `await prisma.tournamentStanding.update`;
a missing standings row is silently skipped).  Returns the standings table
after the handler. -/
def updateStandings (matchTable : List Match) (standings : List TournamentStanding)
    (tid matchId : Nat) : Except AppError (List TournamentStanding) :=
  match matchReady matchTable matchId with
  | none => .error ⟨"Match not completed or no winner", 400⟩
  | some (m, winnerId) =>
      let db1 :=
        match findStanding standings tid winnerId with
        | some ws => updateById standings ws.id bumpWinner
        | none => standings
      let loserId := if m.homeTeamId == winnerId then m.awayTeamId else m.homeTeamId
      let db2 :=
        match findStanding db1 tid loserId with
        | some ls => updateById db1 ls.id bumpLoser
        | none => db1
      .ok db2

/-- Same handler, but exposing the sequence of database states: the initial
standings table followed by one entry per executed `update` call.  The two
updates are issued as two separate awaited statements with no surrounding
`prisma.$transaction`, so an abort between them leaves the store in an
intermediate entry of this list. -/
def updateStandingsStates (matchTable : List Match)
    (standings : List TournamentStanding) (tid matchId : Nat) :
    Except AppError (List (List TournamentStanding)) :=
  match matchReady matchTable matchId with
  | none => .error ⟨"Match not completed or no winner", 400⟩
  | some (m, winnerId) =>
      let states1 :=
        match findStanding standings tid winnerId with
        | some ws => [updateById standings ws.id bumpWinner]
        | none => []
      let db1 := states1.getLastD standings
      let loserId := if m.homeTeamId == winnerId then m.awayTeamId else m.homeTeamId
      let states2 :=
        match findStanding db1 tid loserId with
        | some ls => states1 ++ [updateById db1 ls.id bumpLoser]
        | none => states1
      .ok (standings :: states2)

/-! ## Identity store (auth routes, part_005 / part_004) -/

/-- Prisma `UserRole` enum. -/
inductive UserRole
  | SUPER_ADMIN
  | ADMIN
  | USER
deriving DecidableEq, Repr

/-- Prisma `ApprovalStatus` enum. -/
inductive ApprovalStatus
  | PENDING
  | APPROVED
  | REJECTED
deriving DecidableEq, Repr

/-- `userType` column values. -/
inductive DbUserType
  | PLAYER
  | TRAINEE
  | COMMITTEE
deriving DecidableEq, Repr

/-- Prisma `Player` registration row (fields the auth/approval routes read). -/
structure Player where
  id : Nat
  email : String
  fullName : String
  traineeId : String
  department : String
  teamId : Option Nat
  isApproved : Bool
deriving DecidableEq, Repr

/-- Prisma `FoodRegistration` registration row. -/
structure FoodRegistration where
  id : Nat
  email : String
  fullName : String
  traineeId : String
  department : String
deriving DecidableEq, Repr

/-- Prisma `Committee` registration row. -/
structure Committee where
  id : Nat
  email : String
  fullName : String
  assignedTeam : Option String
  department : Option String
  isApproved : Bool
  checkedIn : Bool
deriving DecidableEq, Repr

/-- Prisma `User` row (the authentication principal; the stored `password`
is the bcrypt hash, modelled as the credential string itself so that
`bcrypt.compare` becomes string equality). -/
structure User where
  id : Nat
  email : String
  firstName : String
  lastName : String
  role : UserRole
  userType : Option DbUserType
  approvalStatus : ApprovalStatus
  password : Option String
  traineeId : Option String
  playerId : Option Nat
  projectName : Option String
deriving DecidableEq, Repr

/-- Prisma `UserLoginRequest` row. -/
structure UserLoginRequest where
  id : Nat
  email : String
  fullName : String
  userType : String
  traineeId : Option String
  department : Option String
  status : ApprovalStatus
  reviewedBy : Option Nat
  reviewNote : Option String
deriving DecidableEq, Repr

/-- Prisma `OTP` row (timestamps in epoch milliseconds). -/
structure OTP where
  id : Nat
  email : String
  code : String
  expiresAt : Int
  verified : Bool
  createdAt : Int
deriving DecidableEq, Repr

/-- Prisma `ApprovalHistory` row. -/
structure ApprovalHistory where
  userId : Nat
  action : ApprovalStatus
  performedBy : Nat
  reason : Option String
deriving DecidableEq, Repr

/-- The three registration tables consulted by every login path. -/
structure RegDb where
  players : List Player
  foodRegistrations : List FoodRegistration
  committees : List Committee
deriving Repr

/-- ASCII lower-casing of one character (JS toLowerCase on the
character range the registration emails use). -/
def lowerChar (c : Char) : Char :=
  if 65 ≤ c.toNat ∧ c.toNat ≤ 90 then Char.ofNat (c.toNat + 32) else c

/-- JS String.prototype.toLowerCase, modelled over ASCII. -/
def lowerString (s : String) : String := ⟨s.data.map lowerChar⟩

/-- JS String.prototype.trim (leading/trailing blanks removed). -/
def trimString (s : String) : String :=
  ⟨((s.data.dropWhile (· = ' ')).reverse.dropWhile (· = ' ')).reverse⟩

/-- The normalization `email.toLowerCase().trim()`. -/
def normalizeEmail (e : String) : String := trimString (lowerString e)

/-- The case-insensitive Prisma equality filter on email columns. -/
def emailMatches (stored query : String) : Bool :=
  lowerString stored == lowerString query

/-- The case-insensitive findFirst over the player table by email. -/
def findPlayerByEmail (db : RegDb) (email : String) : Option Player :=
  db.players.find? fun p => emailMatches p.email email

/-- `prisma.foodRegistration.findFirst(...)`, case-insensitive. -/
def findFoodByEmail (db : RegDb) (email : String) : Option FoodRegistration :=
  db.foodRegistrations.find? fun f => emailMatches f.email email

/-- `prisma.committee.findFirst(...)`, case-insensitive. -/
def findCommitteeByEmail (db : RegDb) (email : String) : Option Committee :=
  db.committees.find? fun c => emailMatches c.email email

/-- First word of the display name (empty when absent). -/
def firstNameOf (s : String) : String := (s.splitOn " ").headD ""

/-- All words of the display name after the first, space-joined. -/
def lastNameOf (s : String) : String := String.intercalate " " (s.splitOn " ").tail

/-! ## Google sign-in (POST /google, part_005 lines 18-214) -/

/-- Outcome of the Google sign-in handler when it does not throw. -/
inductive GoogleOutcome
  | granted (userId : Nat) (role : UserRole)
  | pending (email : String) (name : String)
deriving DecidableEq, Repr

/-- Role / user-type / auto-approval resolution of POST /google
(committee first, then player, then food registrant; trainees are the only
auto-approved kind).  The all-`none` case is unreachable behind the
registration guard. -/
def googleResolution (committee : Option Committee) (player : Option Player)
    (foodRegistrant : Option FoodRegistration) :
    UserRole × DbUserType × Bool :=
  match committee, player, foodRegistrant with
  | some _, _, _ => (.ADMIN, .COMMITTEE, false)
  | none, some _, _ => (.USER, .PLAYER, false)
  | none, none, some _ => (.USER, .TRAINEE, true)
  | none, none, none => (.USER, .PLAYER, false)

/-- `player?.fullName || foodRegistrant?.fullName || committee?.fullName || name`. -/
def googleUserName (player : Option Player) (foodRegistrant : Option FoodRegistration)
    (committee : Option Committee) (name : String) : String :=
  strOr (player.elim "" (·.fullName))
    (strOr (foodRegistrant.elim "" (·.fullName))
      (strOr (committee.elim "" (·.fullName)) name))

/-- `player?.traineeId || foodRegistrant?.traineeId`. -/
def googleTraineeId (player : Option Player)
    (foodRegistrant : Option FoodRegistration) : Option String :=
  match player with
  | some p => some p.traineeId
  | none => foodRegistrant.map (·.traineeId)

/-- POST /google after Firebase verification succeeded with a verified
`email` (already lowercased and trimmed by the handler) and display `name`.
`newUserId` stands for the database-assigned id of a newly created user row.
Returns the outcome together with the user and login-request tables after
the handler (the handler never touches `userLoginRequest`). -/
def googleLogin (db : RegDb) (users : List User)
    (loginRequests : List UserLoginRequest) (rawEmail name : String)
    (newUserId : Nat) :
    Except AppError (GoogleOutcome × List User × List UserLoginRequest) :=
  let email := normalizeEmail rawEmail
  let player := findPlayerByEmail db email
  let foodRegistrant := findFoodByEmail db email
  let committee := findCommitteeByEmail db email
  if player.isNone && foodRegistrant.isNone && committee.isNone then
    .error ⟨"No registration found with this email. Please register through Google Form first.", 404⟩
  else
    let userName := googleUserName player foodRegistrant committee name
    let res := googleResolution committee player foodRegistrant
    match users.find? (fun u => emailMatches u.email email) with
    | some existingUser =>
        if existingUser.approvalStatus = .REJECTED then
          .error ⟨"Your login request has been rejected. Please contact the administrator.", 403⟩
        else if existingUser.approvalStatus = .PENDING then
          .ok (.pending email userName, users, loginRequests)
        else
          let users1 := users.map fun u =>
            if u.id == existingUser.id then
              { u with firstName := firstNameOf userName,
                       lastName := lastNameOf userName }
            else u
          .ok (.granted existingUser.id existingUser.role, users1, loginRequests)
    | none =>
        let autoApprove := res.2.2
        let newUser : User :=
          { id := newUserId
            email := email
            firstName := firstNameOf userName
            lastName := lastNameOf userName
            role := res.1
            userType := some res.2.1
            approvalStatus := if autoApprove then .APPROVED else .PENDING
            password := none
            traineeId := googleTraineeId player foodRegistrant
            playerId := player.map (·.id)
            projectName := none }
        let users1 := users ++ [newUser]
        if autoApprove then
          .ok (.granted newUserId newUser.role, users1, loginRequests)
        else
          .ok (.pending email userName, users1, loginRequests)

/-! ## OTP verify / resend (POST /otp/verify lines 296-460, POST /otp/resend
lines 462-540 of part_005) -/

/-- Outcome of POST /otp/verify when it does not throw. -/
inductive OtpVerifyOutcome
  | granted (userId : Nat) (role : UserRole)
  | pendingRequest (email : String) (fullName : String)
deriving DecidableEq, Repr

/-- The OTP lookup of /otp/verify:
`findFirst({where: {email insensitive, code, verified: false, expiresAt: {gt: now}}})`. -/
def findValidOtp (otps : List OTP) (normalizedEmail code : String) (now : Int) :
    Option OTP :=
  otps.find? fun o =>
    emailMatches o.email normalizedEmail && o.code == code &&
      !o.verified && decide (now < o.expiresAt)

/-- Registration resolution of the first-time /otp/verify branch
(player first, then committee, then food registrant — note the order differs
from POST /google). -/
def otpRequestProfile (db : RegDb) (email : String) :
    String × String × Option String × Option String :=
  match findPlayerByEmail db email, findCommitteeByEmail db email,
      findFoodByEmail db email with
  | some p, _, _ => ("player", p.fullName, some p.traineeId, some p.department)
  | none, some c, _ => ("committee", c.fullName, none, c.department)
  | none, none, some f => ("food", f.fullName, some f.traineeId, some f.department)
  | none, none, none => ("user", "", none, none)

/-- POST /otp/verify.  `newRequestId` stands for the database-assigned id of a
newly created login request.  Returns the outcome with the login-request and
OTP tables after the handler.  The raw `email` is used unnormalized where the
source does so (`deleteMany({where: {email, verified: true}})` and the
login-request lookup both use the raw value). -/
def otpVerify (db : RegDb) (users : List User)
    (loginRequests : List UserLoginRequest) (otps : List OTP)
    (email code : String) (now : Int) (newRequestId : Nat) :
    Except AppError (OtpVerifyOutcome × List UserLoginRequest × List OTP) :=
  let normalizedEmail := normalizeEmail email
  match findValidOtp otps normalizedEmail code now with
  | none => .error ⟨"Invalid or expired OTP", 401⟩
  | some otpRecord =>
      let otps1 := otps.map fun o =>
        if o.id == otpRecord.id then { o with verified := true } else o
      match users.find? (fun u => emailMatches u.email normalizedEmail) with
      | some existingUser =>
          if existingUser.approvalStatus = .REJECTED then
            .error ⟨"Your login request has been rejected. Please contact the administrator.", 403⟩
          else if existingUser.approvalStatus = .PENDING then
            .error ⟨"Your login request is pending approval. Please wait for admin approval.", 403⟩
          else
            let otps2 := otps1.filter fun o => !(o.email == email && o.verified)
            .ok (.granted existingUser.id existingUser.role, loginRequests, otps2)
      | none =>
          match loginRequests.find? (fun r => r.email == email) with
          | some existingRequest =>
              if existingRequest.status = .REJECTED then
                .error ⟨"Your login request was rejected. Reason: " ++
                  existingRequest.reviewNote.getD "No reason provided", 403⟩
              else if existingRequest.status = .PENDING then
                .error ⟨"Your login request is pending approval. Please wait for admin to approve your request.", 403⟩
              else
                let prof := otpRequestProfile db email
                let newRequest : UserLoginRequest :=
                  { id := newRequestId, email := email, fullName := prof.2.1
                    userType := prof.1, traineeId := prof.2.2.1
                    department := prof.2.2.2, status := .PENDING
                    reviewedBy := none, reviewNote := none }
                let loginRequests1 := loginRequests ++ [newRequest]
                let otps2 := otps1.filter fun o => !(o.email == email && o.verified)
                .ok (.pendingRequest email prof.2.1, loginRequests1, otps2)
          | none =>
              let prof := otpRequestProfile db email
              let newRequest : UserLoginRequest :=
                { id := newRequestId, email := email, fullName := prof.2.1
                  userType := prof.1, traineeId := prof.2.2.1
                  department := prof.2.2.2, status := .PENDING
                  reviewedBy := none, reviewNote := none }
              let loginRequests1 := loginRequests ++ [newRequest]
              let otps2 := otps1.filter fun o => !(o.email == email && o.verified)
              .ok (.pendingRequest email prof.2.1, loginRequests1, otps2)

/-- POST /otp/resend.  `newId` / `newCode` stand for the database-assigned id
and the freshly generated 6-digit code of the inserted OTP row.  Returns the
OTP table after the handler. -/
def otpResend (db : RegDb) (otps : List OTP) (email : String) (now : Int)
    (newId : Nat) (newCode : String) : Except AppError (List OTP) :=
  let normalizedEmail := normalizeEmail email
  match otps.find? (fun o =>
      emailMatches o.email normalizedEmail && decide (now - 60000 < o.createdAt)) with
  | some _ => .error ⟨"Please wait 1 minute before requesting a new OTP", 429⟩
  | none =>
      if (findPlayerByEmail db normalizedEmail).isNone &&
          (findFoodByEmail db normalizedEmail).isNone &&
          (findCommitteeByEmail db normalizedEmail).isNone then
        .error ⟨"No registration found with this email", 404⟩
      else
        let kept := otps.filter fun o => !(emailMatches o.email normalizedEmail)
        .ok (kept ++ [{ id := newId, email := normalizedEmail, code := newCode,
                        expiresAt := now + 600000, verified := false,
                        createdAt := now }])

/-! ## Admin password login (POST /login/admin, part_005 lines 645-694 and the
identical route in part_004 lines 114-163) -/

/-- POST /login/admin.  Lookup is `findUnique({where: {email}})` (exact match);
the approval gate applies only to the ADMIN role and runs before the password
comparison; `bcrypt.compare` is modelled as string equality with the stored
credential.  Returns the token payload `(userId, role)`. -/
def loginAdmin (users : List User) (email password : String) :
    Except AppError (Nat × UserRole) :=
  match users.find? (fun u => u.email == email) with
  | none => .error ⟨"Invalid email or password", 401⟩
  | some user =>
      match user.password with
      | none => .error ⟨"Invalid email or password", 401⟩
      | some stored =>
          if user.role = .ADMIN ∧ user.approvalStatus ≠ .APPROVED then
            .error ⟨"Your account is pending approval by Super Admin", 403⟩
          else if password ≠ stored then
            .error ⟨"Invalid email or password", 401⟩
          else
            .ok (user.id, user.role)

/-! ## Login-request decisions (POST /login-requests/:id/approve lines
1033-1125, POST /login-requests/:id/reject lines 1127-1165 of part_005) -/

/-- POST /login-requests/:id/approve.  `newUserId` stands for the
database-assigned id of the created user.  Returns the login-request, user,
player, and approval-history tables after the handler. -/
def approveLoginRequest (db : RegDb) (loginRequests : List UserLoginRequest)
    (users : List User) (history : List ApprovalHistory) (id : Nat)
    (teamId : Option Nat) (adminId : Nat) (newUserId : Nat) :
    Except AppError
      (List UserLoginRequest × List User × List Player × List ApprovalHistory) :=
  match loginRequests.find? (fun r => r.id == id) with
  | none => .error ⟨"Login request not found", 404⟩
  | some loginRequest =>
      if loginRequest.status ≠ .PENDING then
        .error ⟨"This request has already been processed", 400⟩
      else
        let loginRequests1 := loginRequests.map fun r =>
          if r.id == id then
            { r with status := .APPROVED, reviewedBy := some adminId }
          else r
        let player :=
          if loginRequest.userType = "player" then
            db.players.find? fun p => p.email == loginRequest.email
          else none
        let players1 :=
          match player, teamId with
          | some p, some tm =>
              db.players.map fun q =>
                if q.id == p.id then { q with teamId := some tm } else q
          | _, _ => db.players
        let newUser : User :=
          { id := newUserId, email := loginRequest.email
            firstName := firstNameOf loginRequest.fullName
            lastName := lastNameOf loginRequest.fullName
            role := .USER, userType := none
            approvalStatus := .APPROVED, password := none
            traineeId := loginRequest.traineeId
            playerId := player.map (·.id), projectName := none }
        let users1 := users ++ [newUser]
        let history1 := history ++
          [{ userId := newUserId, action := .APPROVED, performedBy := adminId,
             reason := some (if teamId.isSome then
               "First-time login approved with team assignment"
             else "First-time login approved") }]
        .ok (loginRequests1, users1, players1, history1)

/-- POST /login-requests/:id/reject.  Returns the login-request table after
the handler. -/
def rejectLoginRequest (loginRequests : List UserLoginRequest) (id : Nat)
    (reason : Option String) (adminId : Nat) :
    Except AppError (List UserLoginRequest) :=
  match loginRequests.find? (fun r => r.id == id) with
  | none => .error ⟨"Login request not found", 404⟩
  | some loginRequest =>
      if loginRequest.status ≠ .PENDING then
        .error ⟨"This request has already been processed", 400⟩
      else
        .ok (loginRequests.map fun r =>
          if r.id == id then
            { r with status := .REJECTED, reviewedBy := some adminId,
                     reviewNote := some (reason.getD "No reason provided") }
          else r)

/-! ## Principal approval (PUT /admin/:id/approval, part_005 lines 859-950) -/

/-- The validated `status` body parameter (APPROVED or REJECTED). -/
inductive Decision
  | APPROVED
  | REJECTED
deriving DecidableEq, Repr

/-- The `ApprovalStatus` a decision writes. -/
def Decision.toStatus : Decision → ApprovalStatus
  | .APPROVED => .APPROVED
  | .REJECTED => .REJECTED

/-- PUT /admin/:id/approval.  Finds the user, rejects SUPER_ADMIN targets,
then unconditionally overwrites `approvalStatus` (there is no guard on the
current status), appends an approval-history entry, and cascades the
`isApproved` visibility flag onto the linked Player (role USER) or the
committee row with a matching email (role ADMIN).  Returns the user,
history, player, and committee tables after the handler. -/
def adminApproval (db : RegDb) (users : List User)
    (history : List ApprovalHistory) (id : Nat) (decision : Decision)
    (reason : Option String) (reviewerId : Nat) :
    Except AppError
      (List User × List ApprovalHistory × List Player × List Committee) :=
  match users.find? (fun u => u.id == id) with
  | none => .error ⟨"User not found", 404⟩
  | some user =>
      if user.role ≠ .ADMIN ∧ user.role ≠ .USER then
        .error ⟨"Cannot modify Super Admin accounts", 400⟩
      else
        let isApproving := decision = .APPROVED
        let users1 := users.map fun u =>
          if u.id == id then { u with approvalStatus := decision.toStatus }
          else u
        let history1 := history ++
          [{ userId := id, action := decision.toStatus,
             performedBy := reviewerId, reason := reason }]
        let players1 :=
          match user.playerId with
          | some pid =>
              if user.role = .USER then
                db.players.map fun p =>
                  if p.id == pid then { p with isApproved := isApproving } else p
              else db.players
          | none => db.players
        let committees1 :=
          if user.role = .ADMIN then
            match findCommitteeByEmail db user.email with
            | some c =>
                db.committees.map fun d =>
                  if d.id == c.id then { d with isApproved := isApproving } else d
            | none => db.committees
          else db.committees
        .ok (users1, history1, players1, committees1)

/-! ## Lemmas about the pairing loops -/

theorem roundRobinPairs_length (l : List Nat) :
    (roundRobinPairs l).length = l.length.choose 2 := by
  induction l with
  | nil => simp [roundRobinPairs]
  | cons t rest ih =>
      simp only [roundRobinPairs, List.length_append, List.length_map, ih,
        List.length_cons, Nat.choose_succ_succ, Nat.choose_one_right]

theorem mem_roundRobinPairs {l : List Nat} {p : Nat × Nat}
    (h : p ∈ roundRobinPairs l) : p.1 ∈ l ∧ p.2 ∈ l := by
  induction l with
  | nil => simp [roundRobinPairs] at h
  | cons t rest ih =>
      rw [roundRobinPairs, List.mem_append] at h
      rcases h with h | h
      · rcases List.mem_map.mp h with ⟨u, hu, hp⟩
        subst hp
        exact ⟨List.mem_cons_self t rest, List.mem_cons_of_mem t hu⟩
      · exact ⟨List.mem_cons_of_mem t (ih h).1, List.mem_cons_of_mem t (ih h).2⟩

theorem roundRobinPairs_indexOf {l : List Nat} (hnd : l.Nodup) {p : Nat × Nat}
    (h : p ∈ roundRobinPairs l) : l.indexOf p.1 < l.indexOf p.2 := by
  induction l with
  | nil => simp [roundRobinPairs] at h
  | cons t rest ih =>
      rcases List.nodup_cons.mp hnd with ⟨htr, hrest⟩
      rw [roundRobinPairs, List.mem_append] at h
      rcases h with h | h
      · rcases List.mem_map.mp h with ⟨u, hu, hp⟩
        have hut : t ≠ u := fun he => htr (he ▸ hu)
        rw [← hp]
        show List.indexOf t (t :: rest) < List.indexOf u (t :: rest)
        rw [List.indexOf_cons_self, List.indexOf_cons_ne _ hut]
        exact Nat.succ_pos _
      · have h1 := (mem_roundRobinPairs h).1
        have h2 := (mem_roundRobinPairs h).2
        have h1t : t ≠ p.1 := fun he => htr (he ▸ h1)
        have h2t : t ≠ p.2 := fun he => htr (he ▸ h2)
        rw [List.indexOf_cons_ne _ h1t, List.indexOf_cons_ne _ h2t]
        exact Nat.succ_lt_succ (ih hrest h)

theorem roundRobinPairs_countP (l : List Nat) (a b : Nat) (hnd : l.Nodup)
    (hab : a ≠ b) :
    (roundRobinPairs l).countP
      (fun p => (p.1 == a && p.2 == b) || (p.1 == b && p.2 == a)) =
    if a ∈ l ∧ b ∈ l then 1 else 0 := by
  induction l with
  | nil => simp [roundRobinPairs]
  | cons t rest ih =>
      rcases List.nodup_cons.mp hnd with ⟨htr, hrest⟩
      rw [roundRobinPairs, List.countP_append, List.countP_map]
      by_cases hta : t = a
      · subst hta
        have hcomp :
            ((fun p : Nat × Nat => (p.1 == t && p.2 == b) || (p.1 == b && p.2 == t)) ∘
              fun u => (t, u)) = fun u => u == b := by
          funext u
          have h1 : (t == b) = false := beq_eq_false_iff_ne.mpr hab
          simp [Function.comp, h1]
        rw [hcomp, ih hrest]
        have hcount : List.countP (fun u => u == b) rest = rest.count b := by
          simp [List.count]
        rw [hcount]
        have hanr : ¬ (t ∈ rest ∧ b ∈ rest) := fun hc => htr hc.1
        rw [if_neg hanr]
        by_cases hbr : b ∈ rest
        · rw [List.count_eq_one_of_mem hrest hbr, if_pos
            ⟨List.mem_cons_self t rest, List.mem_cons_of_mem t hbr⟩]
        · rw [List.count_eq_zero_of_not_mem hbr, if_neg]
          rintro ⟨-, hb⟩
          rcases List.mem_cons.mp hb with hb | hb
          · exact hab hb.symm
          · exact hbr hb
      · by_cases htb : t = b
        · subst htb
          have hcomp :
              ((fun p : Nat × Nat => (p.1 == a && p.2 == t) || (p.1 == t && p.2 == a)) ∘
                fun u => (t, u)) = fun u => u == a := by
            funext u
            have h1 : (t == a) = false := beq_eq_false_iff_ne.mpr (Ne.symm fun h => hta h.symm)
            simp [Function.comp, h1]
          rw [hcomp, ih hrest]
          have hcount : List.countP (fun u => u == a) rest = rest.count a := by
            simp [List.count]
          rw [hcount]
          have hbnr : ¬ (a ∈ rest ∧ t ∈ rest) := fun hc => htr hc.2
          rw [if_neg hbnr]
          by_cases har : a ∈ rest
          · rw [List.count_eq_one_of_mem hrest har, if_pos
              ⟨List.mem_cons_of_mem t har, List.mem_cons_self t rest⟩]
          · rw [List.count_eq_zero_of_not_mem har, if_neg]
            rintro ⟨ha, -⟩
            rcases List.mem_cons.mp ha with ha | ha
            · exact hta ha.symm
            · exact har ha
        · have hcomp :
              ((fun p : Nat × Nat => (p.1 == a && p.2 == b) || (p.1 == b && p.2 == a)) ∘
                fun u => (t, u)) = fun _ => false := by
            funext u
            have h1 : (t == a) = false := beq_eq_false_iff_ne.mpr hta
            have h2 : (t == b) = false := beq_eq_false_iff_ne.mpr htb
            simp [Function.comp, h1, h2]
          rw [hcomp, ih hrest]
          simp only [List.countP_false, Function.const_apply, Nat.zero_add]
          have hmem : (a ∈ t :: rest ∧ b ∈ t :: rest) ↔ (a ∈ rest ∧ b ∈ rest) := by
            constructor
            · rintro ⟨ha, hb⟩
              refine ⟨?_, ?_⟩
              · rcases List.mem_cons.mp ha with ha | ha
                · exact absurd ha.symm hta
                · exact ha
              · rcases List.mem_cons.mp hb with hb | hb
                · exact absurd hb.symm htb
                · exact hb
            · rintro ⟨ha, hb⟩
              exact ⟨List.mem_cons_of_mem t ha, List.mem_cons_of_mem t hb⟩
          rw [if_congr hmem rfl rfl]

theorem knockoutPairs_length : ∀ l : List Nat,
    (knockoutPairs l).length = l.length / 2
  | [] => rfl
  | [_] => by simp [knockoutPairs]
  | a :: b :: rest => by
      rw [knockoutPairs, List.length_cons, knockoutPairs_length rest]
      simp only [List.length_cons]
      omega

theorem knockoutPairs_get? : ∀ (l : List Nat) (k : Nat),
    (knockoutPairs l).get? k =
      match l.get? (2 * k), l.get? (2 * k + 1) with
      | some a, some b => some (a, b)
      | _, _ => none
  | [], k => by cases k <;> rfl
  | [a], k => by
      cases k with
      | zero => rfl
      | succ n => rfl
  | a :: b :: rest, 0 => by rfl
  | a :: b :: rest, (k + 1) => by
      have h2 : 2 * (k + 1) = 2 * k + 1 + 1 := by omega
      rw [knockoutPairs, List.get?_cons_succ, knockoutPairs_get? rest k, h2]
      rfl

/-! ## Lemmas about the scheduling loop -/

theorem scheduleLoop_length (t : Tournament) (ven : String) (base itv : Int) :
    ∀ (prs : List GeneratedPairing) (n i : Nat),
      (scheduleLoop t ven base itv prs n i).length = prs.length
  | [], _, _ => rfl
  | pr :: rest, n, i => by
      rw [scheduleLoop, List.length_cons,
        scheduleLoop_length t ven base itv rest (n + 1) (i + 1), List.length_cons]

theorem scheduleLoop_get? (t : Tournament) (ven : String) (base itv : Int) :
    ∀ (prs : List GeneratedPairing) (n i k : Nat),
      (scheduleLoop t ven base itv prs n i).get? k =
        (prs.get? k).map fun pr => mkGeneratedMatch t ven base itv (n + k) (i + k) pr
  | [], _, _, _ => by simp [scheduleLoop]
  | _ :: _, _, _, 0 => by simp [scheduleLoop]
  | _ :: rest, n, i, (k + 1) => by
      rw [scheduleLoop, List.get?_cons_succ,
        scheduleLoop_get? t ven base itv rest (n + 1) (i + 1) k, List.get?_cons_succ]
      have h1 : n + 1 + k = n + (k + 1) := by omega
      have h2 : i + 1 + k = i + (k + 1) := by omega
      rw [h1, h2]

theorem scheduleLoop_map_pair (t : Tournament) (ven : String) (base itv : Int) :
    ∀ (prs : List GeneratedPairing) (n i : Nat),
      (scheduleLoop t ven base itv prs n i).map
          (fun m => (m.homeTeamId, m.awayTeamId)) =
        prs.map fun pr => (pr.homeTeamId, pr.awayTeamId)
  | [], _, _ => rfl
  | _ :: rest, n, i => by
      rw [scheduleLoop, List.map_cons, List.map_cons,
        scheduleLoop_map_pair t ven base itv rest (n + 1) (i + 1)]
      rfl

/-- On ≥ 2 teams, `generateMatches` reaches the scheduling loop. -/
theorem generateMatches_ok (t : Tournament) (standings : List TournamentStanding)
    (existing : List Match) (p : GenerateParams)
    (h : ¬ standings.length < 2) :
    generateMatches t standings existing p =
      .ok (scheduleLoop t (effectiveVenue p.venue) (p.startTime.getD t.startDate)
        (effectiveInterval p.matchInterval)
        (tournamentPairings t.ttype (standings.map (·.teamId)))
        (existing.length + 1) 0) := by
  rw [generateMatches, if_neg h]

theorem rr_pairings_map (ttype : TournamentType)
    (h : ttype = .ROUND_ROBIN ∨ ttype = .LEAGUE) (teams : List Nat) :
    (tournamentPairings ttype teams).map
        (fun pr => (pr.homeTeamId, pr.awayTeamId)) = roundRobinPairs teams := by
  rcases h with h | h <;> subst h <;>
  · rw [tournamentPairings, List.map_map]
    have hc : ((fun pr : GeneratedPairing => (pr.homeTeamId, pr.awayTeamId)) ∘
        fun p : Nat × Nat => GeneratedPairing.mk p.1 p.2 none) = id := by
      funext p
      rfl
    rw [hc, List.map_id]

theorem nodup_get?_ne {l : List Nat} (h : l.Nodup) {i j : Nat} {x y : Nat}
    (hi : l.get? i = some x) (hj : l.get? j = some y) (hij : i ≠ j) : x ≠ y := by
  rcases List.get?_eq_some.mp hi with ⟨hi1, hx⟩
  rcases List.get?_eq_some.mp hj with ⟨hj1, hy⟩
  intro he
  apply hij
  have heq : l.get ⟨i, hi1⟩ = l.get ⟨j, hj1⟩ := by
    rw [hx, hy, he]
  have := (h.get_inj_iff).mp heq
  exact congrArg Fin.val this

/-! ## Claim theorems -/

/-- C1: for every ROUND_ROBIN or LEAGUE tournament with n ≥ 2 registered
teams (distinct team ids, in standings insertion order) and a positive
effective interval, `generateMatches` succeeds and emits exactly
n·(n−1)/2 matches, one per unordered pair of teams with each pair appearing
exactly once, paired by the fixed nested iteration (home team strictly
before away team in insertion order), with consecutive scheduled times
spaced `intervalMinutes` apart and strictly increasing overall;
in particular, for 4 teams exactly 4·3/2 = 6 matches are produced. -/
theorem generateMatches_roundRobin_spec
    (t : Tournament) (standings : List TournamentStanding)
    (existing : List Match) (p : GenerateParams)
    (htype : t.ttype = .ROUND_ROBIN ∨ t.ttype = .LEAGUE)
    (hlen : 2 ≤ standings.length)
    (hnd : (standings.map (·.teamId)).Nodup)
    (hint : 0 < effectiveInterval p.matchInterval) :
    ∃ ms, generateMatches t standings existing p = .ok ms ∧
      ms.length = standings.length * (standings.length - 1) / 2 ∧
      (∀ a b : Nat, a ≠ b →
        ms.countP (fun m =>
            (m.homeTeamId == a && m.awayTeamId == b) ||
              (m.homeTeamId == b && m.awayTeamId == a)) =
          if a ∈ standings.map (·.teamId) ∧ b ∈ standings.map (·.teamId)
          then 1 else 0) ∧
      (∀ m ∈ ms, (standings.map (·.teamId)).indexOf m.homeTeamId <
        (standings.map (·.teamId)).indexOf m.awayTeamId) ∧
      (∀ k mk mk1, ms.get? k = some mk → ms.get? (k + 1) = some mk1 →
        mk1.scheduledTime =
          mk.scheduledTime + effectiveInterval p.matchInterval * 60000) ∧
      (∀ j k mj mk, j < k → ms.get? j = some mj → ms.get? k = some mk →
        mj.scheduledTime < mk.scheduledTime) := by
  have h2 : ¬ standings.length < 2 := by omega
  refine ⟨_, generateMatches_ok t standings existing p h2, ?_, ?_, ?_, ?_, ?_⟩
  · -- length
    have hlen1 : (tournamentPairings t.ttype (standings.map (·.teamId))).length =
        (standings.map (·.teamId)).length.choose 2 := by
      rcases htype with h | h <;> rw [h] <;>
        simp [tournamentPairings, List.length_map, roundRobinPairs_length]
    rw [scheduleLoop_length, hlen1, List.length_map, Nat.choose_two_right]
  · -- each unordered pair exactly once
    intro a b hab
    have hpred : (fun m : Match =>
        (m.homeTeamId == a && m.awayTeamId == b) ||
          (m.homeTeamId == b && m.awayTeamId == a)) =
      ((fun q : Nat × Nat => (q.1 == a && q.2 == b) || (q.1 == b && q.2 == a)) ∘
        (fun m : Match => (m.homeTeamId, m.awayTeamId))) := rfl
    rw [hpred, ← List.countP_map, scheduleLoop_map_pair,
      rr_pairings_map t.ttype htype (standings.map (·.teamId)),
      roundRobinPairs_countP (standings.map (·.teamId)) a b hnd hab]
  · -- nested-iteration order: home before away
    intro m hm
    have hpair : (m.homeTeamId, m.awayTeamId) ∈
        roundRobinPairs (standings.map (·.teamId)) := by
      rw [← rr_pairings_map t.ttype htype (standings.map (·.teamId)),
        ← scheduleLoop_map_pair]
      exact List.mem_map_of_mem _ hm
    exact roundRobinPairs_indexOf hnd hpair
  · -- consecutive spacing
    intro k mk mk1 hk hk1
    rw [scheduleLoop_get?] at hk hk1
    rcases Option.map_eq_some'.mp hk with ⟨pr, hpr, hmk⟩
    rcases Option.map_eq_some'.mp hk1 with ⟨pr1, hpr1, hmk1⟩
    subst hmk hmk1
    simp only [mkGeneratedMatch]
    push_cast
    ring
  · -- strictly increasing
    intro j k mj mk hjk hj hk
    rw [scheduleLoop_get?] at hj hk
    rcases Option.map_eq_some'.mp hj with ⟨pr, hpr, hmj⟩
    rcases Option.map_eq_some'.mp hk with ⟨pr1, hpr1, hmk⟩
    subst hmj hmk
    simp only [mkGeneratedMatch]
    have hI : (0 : Int) < effectiveInterval p.matchInterval * 60000 :=
      mul_pos hint (by norm_num)
    have hjk1 : ((0 + j : Nat) : Int) < ((0 + k : Nat) : Int) := by
      exact_mod_cast Nat.add_lt_add_left hjk 0
    have hmul := mul_lt_mul_of_pos_right hjk1 hI
    rw [mul_assoc, mul_assoc]
    exact add_lt_add_left hmul _

/-- Witness for C1: a concrete 4-team ROUND_ROBIN tournament yields exactly
6 matches. -/
theorem generateMatches_roundRobin_spec_witness :
    ∃ ms,
      generateMatches ⟨1, .ROUND_ROBIN, "T20", 0⟩
          [⟨10, 1, 1, 0, 0, 0, 0⟩, ⟨11, 1, 2, 0, 0, 0, 0⟩,
            ⟨12, 1, 3, 0, 0, 0, 0⟩, ⟨13, 1, 4, 0, 0, 0, 0⟩]
          [] ⟨none, none, some 30⟩ = .ok ms ∧
      ms.length = 6 := by
  obtain ⟨ms, h1, h2, -, -, -, -⟩ :=
    generateMatches_roundRobin_spec ⟨1, .ROUND_ROBIN, "T20", 0⟩
      [⟨10, 1, 1, 0, 0, 0, 0⟩, ⟨11, 1, 2, 0, 0, 0, 0⟩,
        ⟨12, 1, 3, 0, 0, 0, 0⟩, ⟨13, 1, 4, 0, 0, 0, 0⟩]
      [] ⟨none, none, some 30⟩ (Or.inl rfl) (by decide) (by decide) (by decide)
  exact ⟨ms, h1, h2.trans (by decide)⟩

/-- C6: for every KNOCKOUT tournament with n ≥ 2 registered teams (distinct
team ids), `generateMatches` succeeds, pairs teams sequentially in insertion
order two at a time (match k is teams[2k] vs teams[2k+1]), producing
⌊n/2⌋ matches; when n is odd the final unpaired team appears in no generated
match. -/
theorem generateMatches_knockout_spec
    (t : Tournament) (standings : List TournamentStanding)
    (existing : List Match) (p : GenerateParams)
    (htype : t.ttype = .KNOCKOUT)
    (hlen : 2 ≤ standings.length)
    (hnd : (standings.map (·.teamId)).Nodup) :
    ∃ ms, generateMatches t standings existing p = .ok ms ∧
      ms.length = standings.length / 2 ∧
      (∀ k mk, ms.get? k = some mk →
        (standings.map (·.teamId)).get? (2 * k) = some mk.homeTeamId ∧
        (standings.map (·.teamId)).get? (2 * k + 1) = some mk.awayTeamId) ∧
      (standings.length % 2 = 1 →
        ∀ lastTeam,
          (standings.map (·.teamId)).get? (standings.length - 1) = some lastTeam →
          ∀ m ∈ ms, m.homeTeamId ≠ lastTeam ∧ m.awayTeamId ≠ lastTeam) := by
  have h2 : ¬ standings.length < 2 := by omega
  have hko : tournamentPairings t.ttype (standings.map (·.teamId)) =
      (knockoutPairs (standings.map (·.teamId))).map
        (fun q => ⟨q.1, q.2,
          some (roundLabel (Nat.clog 2 (standings.map (·.teamId)).length))⟩) := by
    rw [htype]
    rfl
  have hpairAt : ∀ k (mk : Match),
      (scheduleLoop t (effectiveVenue p.venue) (p.startTime.getD t.startDate)
          (effectiveInterval p.matchInterval)
          (tournamentPairings t.ttype (standings.map (·.teamId)))
          (existing.length + 1) 0).get? k = some mk →
      (standings.map (·.teamId)).get? (2 * k) = some mk.homeTeamId ∧
      (standings.map (·.teamId)).get? (2 * k + 1) = some mk.awayTeamId := by
    intro k mk hk
    rw [scheduleLoop_get?] at hk
    rcases Option.map_eq_some'.mp hk with ⟨pr, hpr, hmk⟩
    rw [hko, List.get?_map] at hpr
    rcases Option.map_eq_some'.mp hpr with ⟨q, hq, hprq⟩
    rw [knockoutPairs_get? (standings.map (·.teamId)) k] at hq
    subst hmk
    subst hprq
    revert hq
    cases hget1 : (standings.map (·.teamId)).get? (2 * k) with
    | none => intro hq; cases hq
    | some a =>
        cases hget2 : (standings.map (·.teamId)).get? (2 * k + 1) with
        | none => intro hq; cases hq
        | some b =>
            intro hq
            cases hq
            exact ⟨rfl, rfl⟩
  refine ⟨_, generateMatches_ok t standings existing p h2, ?_, hpairAt, ?_⟩
  · rw [scheduleLoop_length, hko, List.length_map, knockoutPairs_length,
      List.length_map]
  · intro hodd lastTeam hlast m hm
    rcases List.get?_of_mem hm with ⟨k, hk⟩
    have hp := hpairAt k m hk
    have hb1 := (List.get?_eq_some.mp hp.1).1
    have hb2 := (List.get?_eq_some.mp hp.2).1
    rw [List.length_map] at hb1 hb2
    constructor
    · exact nodup_get?_ne hnd hp.1 hlast (by omega)
    · exact nodup_get?_ne hnd hp.2 hlast (by omega)

/-- Witness for C6: a concrete 5-team KNOCKOUT tournament yields 2 matches
and the fifth team is in none of them. -/
theorem generateMatches_knockout_spec_witness :
    ∃ ms,
      generateMatches ⟨1, .KNOCKOUT, "T20", 0⟩
          [⟨10, 1, 1, 0, 0, 0, 0⟩, ⟨11, 1, 2, 0, 0, 0, 0⟩,
            ⟨12, 1, 3, 0, 0, 0, 0⟩, ⟨13, 1, 4, 0, 0, 0, 0⟩,
            ⟨14, 1, 5, 0, 0, 0, 0⟩]
          [] ⟨none, none, none⟩ = .ok ms ∧
      ms.length = 2 ∧
      (∀ m ∈ ms, m.homeTeamId ≠ 5 ∧ m.awayTeamId ≠ 5) := by
  obtain ⟨ms, h1, h2, -, h4⟩ :=
    generateMatches_knockout_spec ⟨1, .KNOCKOUT, "T20", 0⟩
      [⟨10, 1, 1, 0, 0, 0, 0⟩, ⟨11, 1, 2, 0, 0, 0, 0⟩,
        ⟨12, 1, 3, 0, 0, 0, 0⟩, ⟨13, 1, 4, 0, 0, 0, 0⟩,
        ⟨14, 1, 5, 0, 0, 0, 0⟩]
      [] ⟨none, none, none⟩ rfl (by decide) (by decide)
  exact ⟨ms, h1, h2.trans (by decide), h4 (by decide) 5 (by decide)⟩

/-- If `f` preserves `tournamentId` and `teamId`, `findStanding` commutes
with the row update. -/
theorem findStanding_updateById (standings : List TournamentStanding)
    (rowId tid teamId : Nat) (f : TournamentStanding → TournamentStanding)
    (hpres : ∀ s, (f s).tournamentId = s.tournamentId ∧ (f s).teamId = s.teamId) :
    findStanding (updateById standings rowId f) tid teamId =
      (findStanding standings tid teamId).map
        fun s => if s.id == rowId then f s else s := by
  have hp : ((fun s : TournamentStanding => s.tournamentId == tid && s.teamId == teamId) ∘
      fun s => if s.id == rowId then f s else s) =
      fun s : TournamentStanding => s.tournamentId == tid && s.teamId == teamId := by
    funext s
    by_cases h : (s.id == rowId) = true <;>
      simp [Function.comp, h, (hpres s).1, (hpres s).2]
  rw [findStanding, updateById, List.find?_map, hp, findStanding]

/-- Distinct rows of a table with `Nodup` ids have distinct ids. -/
theorem standing_id_ne {standings : List TournamentStanding}
    (hnd : (standings.map (·.id)).Nodup) {x y : TournamentStanding}
    (hx : x ∈ standings) (hy : y ∈ standings) (hxy : x ≠ y) : x.id ≠ y.id :=
  fun h => hxy (List.inj_on_of_nodup_map hnd hx hy h)

/-- The guard trips exactly when there is no completed match with a winner
under the requested id. -/
theorem matchReady_none_iff (matchTable : List Match) (matchId : Nat) :
    matchReady matchTable matchId = none ↔
      ¬ ∃ m, matchTable.find? (fun x => x.id == matchId) = some m ∧
        m.status = .COMPLETED ∧ m.winnerId.isSome := by
  rw [matchReady]
  split
  · rename_i hf
    simp [hf]
  · rename_i m hf
    split
    · rename_i hwi
      simp [hf, hwi]
    · rename_i w hwi
      by_cases hst : m.status = .COMPLETED
      · rw [if_pos hst]
        simp [hf, hwi, hst]
      · rw [if_neg hst]
        simp [hf, hwi, hst]

/-- C2: `recordResult` (POST /:id/update-standings) fails with the
NotCompleted error exactly when the referenced match is missing, has no
declared winner, or is not COMPLETED; on success (with both standings rows
present, distinct home/away teams and unique row ids) the winner row
gains matchesPlayed+1, wins+1, points+2, the loser row gains
matchesPlayed+1, losses+1 (the loser being whichever of home/away is not
the winner), and every other row is unchanged. -/
theorem updateStandings_spec (matchTable : List Match)
    (standings : List TournamentStanding) (tid matchId : Nat) :
    (updateStandings matchTable standings tid matchId =
        .error ⟨"Match not completed or no winner", 400⟩ ↔
      ¬ ∃ m, matchTable.find? (fun x => x.id == matchId) = some m ∧
        m.status = .COMPLETED ∧ m.winnerId.isSome) ∧
    (∀ m w wrow lrow,
      matchTable.find? (fun x => x.id == matchId) = some m →
      m.status = .COMPLETED → m.winnerId = some w →
      m.homeTeamId ≠ m.awayTeamId →
      findStanding standings tid w = some wrow →
      findStanding standings tid
        (if m.homeTeamId == w then m.awayTeamId else m.homeTeamId) = some lrow →
      (standings.map (·.id)).Nodup →
      updateStandings matchTable standings tid matchId =
        .ok (standings.map fun s =>
          if s.id = wrow.id then bumpWinner s
          else if s.id = lrow.id then bumpLoser s
          else s)) := by
  constructor
  · -- the error happens exactly when the guard trips
    rw [updateStandings]
    rcases hready : matchReady matchTable matchId with - | mw
    · exact ⟨fun _ => (matchReady_none_iff matchTable matchId).mp hready,
        fun _ => rfl⟩
    · refine ⟨fun h => Except.noConfusion h, fun hno => ?_⟩
      exfalso
      have hnone := (matchReady_none_iff matchTable matchId).mpr hno
      rw [hnone] at hready
      exact Option.noConfusion hready
  · -- the success shape
    intro m w wrow lrow hfind hst hw hne hws hls hnd
    have hready : matchReady matchTable matchId = some (m, w) := by
      rw [matchReady, hfind]
      show (match m.winnerId with
        | none => none
        | some w => if m.status = .COMPLETED then some (m, w) else none) = some (m, w)
      rw [hw]
      show (if m.status = .COMPLETED then some (m, w) else none) = some (m, w)
      rw [if_pos hst]
    rw [updateStandings, hready]
    have hwmem := List.mem_of_find?_eq_some hws
    have hlmem := List.mem_of_find?_eq_some hls
    have hwteam : wrow.teamId = w := by
      have h := List.find?_some hws
      simp only [findStanding] at h
      simp only [Bool.and_eq_true] at h
      exact beq_iff_eq.mp h.2
    have hlteam : lrow.teamId =
        (if m.homeTeamId == w then m.awayTeamId else m.homeTeamId) := by
      have h := List.find?_some hls
      simp only [Bool.and_eq_true] at h
      exact beq_iff_eq.mp h.2
    have hwl : w ≠ (if m.homeTeamId == w then m.awayTeamId else m.homeTeamId) := by
      by_cases hh : m.homeTeamId = w
      · rw [if_pos (beq_iff_eq.mpr hh)]
        intro he
        exact hne (hh.trans he)
      · rw [if_neg (fun hb => hh (beq_iff_eq.mp hb))]
        intro he
        exact hh he.symm
    have hrowne : wrow ≠ lrow := by
      intro he
      apply hwl
      calc w = wrow.teamId := hwteam.symm
        _ = lrow.teamId := by rw [he]
        _ = _ := hlteam
    have hidne : wrow.id ≠ lrow.id := standing_id_ne hnd hwmem hlmem hrowne
    have hupd := findStanding_updateById standings wrow.id tid
      (if m.homeTeamId == w then m.awayTeamId else m.homeTeamId) bumpWinner
      (fun _ => ⟨rfl, rfl⟩)
    rw [hls] at hupd
    have hlaux : ¬ ((lrow.id == wrow.id) = true) := by
      simp only [beq_iff_eq]
      exact Ne.symm hidne
    rw [Option.map_some', if_neg hlaux] at hupd
    simp only [updateStandings, hready, hws, hupd]
    have hfun : ((fun s : TournamentStanding =>
        if s.id == lrow.id then bumpLoser s else s) ∘
        (fun s : TournamentStanding =>
          if s.id == wrow.id then bumpWinner s else s)) =
        (fun s : TournamentStanding =>
          if s.id = wrow.id then bumpWinner s
          else if s.id = lrow.id then bumpLoser s else s) := by
      funext s
      by_cases h1 : s.id = wrow.id
      · have h2 : s.id ≠ lrow.id := h1 ▸ hidne
        simp only [Function.comp, h1, h2, bumpWinner, beq_self_eq_true, if_true,
          if_pos]
        simp [bumpWinner]
        exact fun hcon => absurd hcon hidne
      · by_cases h2 : s.id = lrow.id
        · simp [Function.comp, h1, h2, Ne.symm hidne]
        · simp [Function.comp, h1, h2]
    rw [updateById, updateById, List.map_map, hfun]

/-- Witness for C2: completing A-B with winner A from zeroed standings yields
A = {played 1, wins 1, points 2} and B = {played 1, losses 1, points 0};
with no completed match the handler fails. -/
theorem updateStandings_spec_witness :
    updateStandings [⟨1, 1, "T20", some 1, 1, 2, 0, "TBD", 20, .COMPLETED, some 1, none⟩]
        [⟨10, 1, 1, 0, 0, 0, 0⟩, ⟨11, 1, 2, 0, 0, 0, 0⟩] 1 1 =
      .ok [⟨10, 1, 1, 1, 1, 0, 2⟩, ⟨11, 1, 2, 1, 0, 1, 0⟩] ∧
    updateStandings [] [⟨10, 1, 1, 0, 0, 0, 0⟩] 1 1 =
      .error ⟨"Match not completed or no winner", 400⟩ := by
  constructor
  · have h := (updateStandings_spec
      [⟨1, 1, "T20", some 1, 1, 2, 0, "TBD", 20, .COMPLETED, some 1, none⟩]
      [⟨10, 1, 1, 0, 0, 0, 0⟩, ⟨11, 1, 2, 0, 0, 0, 0⟩] 1 1).2
      ⟨1, 1, "T20", some 1, 1, 2, 0, "TBD", 20, .COMPLETED, some 1, none⟩ 1
      ⟨10, 1, 1, 0, 0, 0, 0⟩ ⟨11, 1, 2, 0, 0, 0, 0⟩
      rfl rfl rfl (by decide) rfl rfl (by decide)
    rw [h]
    rfl
  · exact (updateStandings_spec [] [⟨10, 1, 1, 0, 0, 0, 0⟩] 1 1).1.mpr
      (by rintro ⟨m, hm, -⟩; cases hm)

/-- C3: the claim (winner and loser standings updated atomically) is the
stated requirement, but the handler issues the two updates as two separate
sequential statements with no transaction: aborting after the first write
leaves the winner row incremented while the loser row is unchanged.
This theorem evaluates the write-state trace at a concrete completed match:
the intermediate database state (after write 1 of 2) has the winner at
{played 1, wins 1, points 2} and the loser still at {played 0}. -/
theorem updateStandings_not_atomic :
    updateStandingsStates
        [⟨1, 1, "T20", some 1, 1, 2, 0, "TBD", 20, .COMPLETED, some 1, none⟩]
        [⟨10, 1, 1, 0, 0, 0, 0⟩, ⟨11, 1, 2, 0, 0, 0, 0⟩] 1 1 =
      .ok [[⟨10, 1, 1, 0, 0, 0, 0⟩, ⟨11, 1, 2, 0, 0, 0, 0⟩],
           [⟨10, 1, 1, 1, 1, 0, 2⟩, ⟨11, 1, 2, 0, 0, 0, 0⟩],
           [⟨10, 1, 1, 1, 1, 0, 2⟩, ⟨11, 1, 2, 1, 0, 1, 0⟩]] := by
  rfl

/-- C4: on first login through Google sign-in (no existing principal), an
email whose matched registration kind is FoodRegistrant (trainee: no
committee row, no player row, a food-registration row) creates the
principal already APPROVED and yields a token (Granted) directly, with the
login-request table untouched; an email whose matched kind is CommitteeMember
or Player creates the principal PENDING and returns the pending-approval
response instead of a token (also touching no login request). -/
theorem googleLogin_auto_approval (db : RegDb) (users : List User)
    (loginRequests : List UserLoginRequest) (rawEmail name : String)
    (newUserId : Nat)
    (hUser : users.find?
      (fun u => emailMatches u.email (normalizeEmail rawEmail)) = none) :
    ((findCommitteeByEmail db (normalizeEmail rawEmail) = none ∧
      findPlayerByEmail db (normalizeEmail rawEmail) = none ∧
      (∃ f, findFoodByEmail db (normalizeEmail rawEmail) = some f)) →
      ∃ nu, googleLogin db users loginRequests rawEmail name newUserId =
          .ok (.granted newUserId .USER, users ++ [nu], loginRequests) ∧
        nu.approvalStatus = .APPROVED) ∧
    (((∃ c, findCommitteeByEmail db (normalizeEmail rawEmail) = some c) ∨
      (findCommitteeByEmail db (normalizeEmail rawEmail) = none ∧
        ∃ p, findPlayerByEmail db (normalizeEmail rawEmail) = some p)) →
      ∃ nu nm, googleLogin db users loginRequests rawEmail name newUserId =
          .ok (.pending (normalizeEmail rawEmail) nm, users ++ [nu],
            loginRequests) ∧
        nu.approvalStatus = .PENDING) := by
  constructor
  · rintro ⟨hc, hp, f, hf⟩
    rw [googleLogin]
    simp only [hc, hp, hf, hUser, googleResolution, Option.isNone_none,
      Option.isNone_some, Bool.false_and, Bool.and_false, Bool.true_and,
      Bool.and_true, if_false, if_true]
    exact ⟨_, rfl, rfl⟩
  · intro hcase
    rcases hcase with ⟨c, hc⟩ | ⟨hc, p, hp⟩
    · rcases hfp : findPlayerByEmail db (normalizeEmail rawEmail) with - | p <;>
        rcases hff : findFoodByEmail db (normalizeEmail rawEmail) with - | f <;>
      · rw [googleLogin]
        simp only [hc, hfp, hff, hUser, googleResolution, Option.isNone_none,
          Option.isNone_some, Bool.false_and, Bool.and_false, Bool.true_and,
          Bool.and_true, if_false, if_true]
        exact ⟨_, _, rfl, rfl⟩
    · rcases hff : findFoodByEmail db (normalizeEmail rawEmail) with - | f <;>
      · rw [googleLogin]
        simp only [hc, hp, hff, hUser, googleResolution, Option.isNone_none,
          Option.isNone_some, Bool.false_and, Bool.and_false, Bool.true_and,
          Bool.and_true, if_false, if_true]
        exact ⟨_, _, rfl, rfl⟩

/-- Witness for C4: a trainee-only email is granted an APPROVED principal
on first Google login; a player-only email gets the pending response with a
PENDING principal. -/
theorem googleLogin_auto_approval_witness :
    (∃ nu, googleLogin
        ⟨[], [⟨5, "t@x.com", "Tr One", "TR1", "D1"⟩], []⟩ [] [] "t@x.com" "G" 100 =
        .ok (.granted 100 .USER, [] ++ [nu], []) ∧
      nu.approvalStatus = .APPROVED) ∧
    (∃ nu nm, googleLogin
        ⟨[⟨7, "p@x.com", "Pat Q", "TR7", "D7", none, false⟩], [], []⟩ []
          [] "p@x.com" "G" 100 =
        .ok (.pending (normalizeEmail "p@x.com") nm, [] ++ [nu], []) ∧
      nu.approvalStatus = .PENDING) := by
  constructor
  · exact (googleLogin_auto_approval
      ⟨[], [⟨5, "t@x.com", "Tr One", "TR1", "D1"⟩], []⟩ [] [] "t@x.com" "G" 100
      rfl).1 ⟨rfl, rfl, ⟨5, "t@x.com", "Tr One", "TR1", "D1"⟩, by rfl⟩
  · exact (googleLogin_auto_approval
      ⟨[⟨7, "p@x.com", "Pat Q", "TR7", "D7", none, false⟩], [], []⟩ [] []
      "p@x.com" "G" 100 rfl).2
      (Or.inr ⟨rfl, ⟨7, "p@x.com", "Pat Q", "TR7", "D7", none, false⟩, by rfl⟩)

/-- C7 counterexample: on the OTP-verify login path, a registered principal
whose approvalStatus is PENDING (with a valid unexpired code) is answered
with a hard 403 AppError, not an accepted-but-not-authorized pending result
carrying the email and display name; so the claim does not hold for every
login path. -/
theorem otpVerify_pending_hard_failure :
    otpVerify ⟨[⟨7, "p@x.com", "Pat Q", "TR7", "D7", none, false⟩], [], []⟩
        [⟨50, "p@x.com", "Pat", "Q", .USER, some .PLAYER, .PENDING, none, none,
          some 7, none⟩]
        [] [⟨1, "p@x.com", "123456", 1000, false, 0⟩] "p@x.com" "123456" 500 77 =
      .error ⟨"Your login request is pending approval. Please wait for admin approval.", 403⟩ := by
  rfl

/-- C7 (amended): a PENDING principal is answered with the 202
pending-approval result carrying the email and display name on the Google
sign-in path (provided a registration row exists); on the OTP-verify path
the same PENDING state is signalled as a hard 403 error instead. -/
theorem pending_principal_by_path
    (db : RegDb) (users : List User) (loginRequests : List UserLoginRequest)
    (otps : List OTP) (rawEmail name code : String) (now : Int)
    (newUserId newRequestId : Nat) (u : User)
    (hu : users.find?
      (fun v => emailMatches v.email (normalizeEmail rawEmail)) = some u)
    (hpend : u.approvalStatus = .PENDING) :
    (((findPlayerByEmail db (normalizeEmail rawEmail)).isSome ∨
      (findFoodByEmail db (normalizeEmail rawEmail)).isSome ∨
      (findCommitteeByEmail db (normalizeEmail rawEmail)).isSome) →
      ∃ nm, googleLogin db users loginRequests rawEmail name newUserId =
        .ok (.pending (normalizeEmail rawEmail) nm, users, loginRequests)) ∧
    (∀ o, findValidOtp otps (normalizeEmail rawEmail) code now = some o →
      otpVerify db users loginRequests otps rawEmail code now newRequestId =
        .error ⟨"Your login request is pending approval. Please wait for admin approval.", 403⟩) := by
  constructor
  · intro hreg
    rw [googleLogin]
    have hguard : ((findPlayerByEmail db (normalizeEmail rawEmail)).isNone &&
        (findFoodByEmail db (normalizeEmail rawEmail)).isNone &&
        (findCommitteeByEmail db (normalizeEmail rawEmail)).isNone) = false := by
      rcases hreg with h | h | h <;>
        rcases Option.isSome_iff_exists.mp h with ⟨x, hx⟩ <;>
          simp [hx]
    simp only [hguard, hu, hpend]
    simp
  · intro o ho
    rw [otpVerify]
    simp only [ho, hu, hpend]
    simp

/-- Witness for the amended C7 at concrete inputs: the Google path answers
202-pending with email and name, the OTP path answers a 403 error. -/
theorem pending_principal_by_path_witness :
    (∃ nm, googleLogin ⟨[⟨7, "p@x.com", "Pat Q", "TR7", "D7", none, false⟩], [], []⟩
        [⟨50, "p@x.com", "Pat", "Q", .USER, some .PLAYER, .PENDING, none, none,
          some 7, none⟩] [] "p@x.com" "G" 100 =
      .ok (.pending (normalizeEmail "p@x.com") nm,
        [⟨50, "p@x.com", "Pat", "Q", .USER, some .PLAYER, .PENDING, none, none,
          some 7, none⟩], [])) ∧
    otpVerify ⟨[⟨7, "p@x.com", "Pat Q", "TR7", "D7", none, false⟩], [], []⟩
        [⟨50, "p@x.com", "Pat", "Q", .USER, some .PLAYER, .PENDING, none, none,
          some 7, none⟩]
        [] [⟨1, "p@x.com", "654321", 1000, false, 0⟩] "p@x.com" "654321" 500 77 =
      .error ⟨"Your login request is pending approval. Please wait for admin approval.", 403⟩ := by
  have h := pending_principal_by_path
    ⟨[⟨7, "p@x.com", "Pat Q", "TR7", "D7", none, false⟩], [], []⟩
    [⟨50, "p@x.com", "Pat", "Q", .USER, some .PLAYER, .PENDING, none, none,
      some 7, none⟩]
    [] [⟨1, "p@x.com", "654321", 1000, false, 0⟩] "p@x.com" "G" "654321" 500
    100 77
    ⟨50, "p@x.com", "Pat", "Q", .USER, some .PLAYER, .PENDING, none, none,
      some 7, none⟩ (by rfl) rfl
  exact ⟨h.1 (Or.inl (by rfl)),
    h.2 ⟨1, "p@x.com", "654321", 1000, false, 0⟩ (by rfl)⟩

/-- C5 counterexample: the principal decide endpoint (PUT /admin/:id/approval)
accepts a decision on a target whose approvalStatus is already APPROVED:
it succeeds and overwrites the stored status instead of failing
AlreadyProcessed, so the claim fails for Principal targets. -/
theorem adminApproval_redecide_counterexample :
    ∃ out,
      adminApproval ⟨[], [], []⟩
          [⟨50, "p@x.com", "Pat", "Q", .USER, some .PLAYER, .APPROVED, none,
            none, none, none⟩]
          [] 50 .REJECTED none 9 = .ok out ∧
      out.1.map (·.approvalStatus) = [.REJECTED] := by
  exact ⟨_, rfl, rfl⟩

/-- C5 (amended): deciding an already-APPROVED or already-REJECTED
LoginRequest (approve or reject route) always fails with the
already-processed 400 error and performs no write; but the Principal decide
endpoint (PUT /admin/:id/approval) has no such guard: for any found ADMIN-
or USER-role target it succeeds and overwrites approvalStatus with the
requested decision regardless of the current stored status. -/
theorem decide_already_processed_spec :
    (∀ (db : RegDb) (loginRequests : List UserLoginRequest) (users : List User)
        (history : List ApprovalHistory) (id : Nat) (teamId : Option Nat)
        (adminId newUserId : Nat) (r : UserLoginRequest),
      loginRequests.find? (fun x => x.id == id) = some r →
      r.status ≠ .PENDING →
      approveLoginRequest db loginRequests users history id teamId adminId
          newUserId =
        .error ⟨"This request has already been processed", 400⟩) ∧
    (∀ (loginRequests : List UserLoginRequest) (id : Nat)
        (reason : Option String) (adminId : Nat) (r : UserLoginRequest),
      loginRequests.find? (fun x => x.id == id) = some r →
      r.status ≠ .PENDING →
      rejectLoginRequest loginRequests id reason adminId =
        .error ⟨"This request has already been processed", 400⟩) ∧
    (∀ (db : RegDb) (users : List User) (history : List ApprovalHistory)
        (id : Nat) (decision : Decision) (reason : Option String)
        (reviewerId : Nat) (u : User),
      users.find? (fun x => x.id == id) = some u →
      (u.role = .ADMIN ∨ u.role = .USER) →
      ∃ out,
        adminApproval db users history id decision reason reviewerId =
          .ok out ∧
        out.1 = users.map fun v =>
          if v.id == id then { v with approvalStatus := decision.toStatus }
          else v) := by
  refine ⟨?_, ?_, ?_⟩
  · intro db loginRequests users history id teamId adminId newUserId r hfind hne
    rw [approveLoginRequest]
    simp only [hfind]
    rw [if_pos hne]
  · intro loginRequests id reason adminId r hfind hne
    rw [rejectLoginRequest]
    simp only [hfind]
    rw [if_pos hne]
  · intro db users history id decision reason reviewerId u hfind hrole
    rw [adminApproval]
    simp only [hfind]
    have hg : ¬ (u.role ≠ .ADMIN ∧ u.role ≠ .USER) := by
      rcases hrole with h | h <;> simp [h]
    rw [if_neg hg]
    exact ⟨_, rfl, rfl⟩

/-- Witness for the amended C5 at concrete inputs: approving and rejecting
already-decided login requests both fail, and the principal decide endpoint
overwrites an already-APPROVED USER target. -/
theorem decide_already_processed_spec_witness :
    approveLoginRequest ⟨[], [], []⟩
        [⟨1, "e@x.com", "Nn", "player", none, none, .APPROVED, none, none⟩]
        [] [] 1 none 9 77 =
      .error ⟨"This request has already been processed", 400⟩ ∧
    rejectLoginRequest
        [⟨1, "e@x.com", "Nn", "player", none, none, .REJECTED, none, none⟩]
        1 none 9 =
      .error ⟨"This request has already been processed", 400⟩ ∧
    (∃ out,
      adminApproval ⟨[], [], []⟩
          [⟨60, "q@x.com", "Aa", "B", .USER, none, .APPROVED, none, none, none,
            none⟩]
          [] 60 .APPROVED none 9 = .ok out ∧
      out.1 = [⟨60, "q@x.com", "Aa", "B", .USER, none, .APPROVED, none, none,
        none, none⟩].map fun v =>
          if v.id == 60 then { v with approvalStatus := Decision.APPROVED.toStatus }
          else v) := by
  refine ⟨?_, ?_, ?_⟩
  · exact decide_already_processed_spec.1 ⟨[], [], []⟩ _ [] [] 1 none 9 77 _
      rfl (by decide)
  · exact decide_already_processed_spec.2.1 _ 1 none 9 _ rfl (by decide)
  · exact decide_already_processed_spec.2.2 ⟨[], [], []⟩ _ [] 60 .APPROVED none 9
      ⟨60, "q@x.com", "Aa", "B", .USER, none, .APPROVED, none, none, none, none⟩
      rfl (Or.inr rfl)

/-- C8: after a successful OTP resend for an email at time t0, a second
resend strictly within 60 seconds fails with the 429 rate-limit error;
a second resend at or after t0 + 60 seconds succeeds, removes every OTP row
for that email that existed before it, and verifying any code other than the
newly issued one then fails with the invalid-OTP 401 error, for every
verification time and state. -/
theorem otpResend_spec
    (db : RegDb) (otps otps1 : List OTP) (email : String) (t0 t1 : Int)
    (id1 id2 : Nat) (code1 code2 : String)
    (h1 : otpResend db otps email t0 id1 code1 = .ok otps1) :
    (t1 < t0 + 60000 →
      otpResend db otps1 email t1 id2 code2 =
        .error ⟨"Please wait 1 minute before requesting a new OTP", 429⟩) ∧
    (t0 + 60000 ≤ t1 →
      ∃ otps2, otpResend db otps1 email t1 id2 code2 = .ok otps2 ∧
        (∀ o ∈ otps1, emailMatches o.email (normalizeEmail email) = true →
          o ∉ otps2) ∧
        (∀ (users : List User) (loginRequests : List UserLoginRequest)
            (c : String) (tv : Int) (rid : Nat), c ≠ code2 →
          otpVerify db users loginRequests otps2 email c tv rid =
            .error ⟨"Invalid or expired OTP", 401⟩)) := by
  simp only [otpResend] at h1
  split at h1
  · simp at h1
  · rename_i hfind
    split at h1
    · simp at h1
    · rename_i hreg
      rw [Except.ok.injEq] at h1
      constructor
      · -- rate limited within 60 seconds
        intro ht
        simp only [otpResend]
        have hmem : (otps1.find? (fun o =>
            emailMatches o.email (normalizeEmail email) &&
              decide (t1 - 60000 < o.createdAt))).isSome := by
          rw [List.find?_isSome]
          refine ⟨⟨id1, normalizeEmail email, code1, t0 + 600000, false, t0⟩,
            ?_, ?_⟩
          · rw [← h1]
            exact List.mem_append_right _ (List.mem_singleton_self _)
          · simp only [emailMatches, beq_self_eq_true, Bool.true_and,
              decide_eq_true_eq]
            omega
        rcases Option.isSome_iff_exists.mp hmem with ⟨x, hx⟩
        rw [hx]
      · -- resend after 60 seconds
        intro ht
        simp only [otpResend]
        have hnone : otps1.find? (fun o =>
            emailMatches o.email (normalizeEmail email) &&
              decide (t1 - 60000 < o.createdAt)) = none := by
          rw [List.find?_eq_none]
          intro x hxmem
          rw [← h1] at hxmem
          rcases List.mem_append.mp hxmem with hxk | hx1
          · have hnm := (List.mem_filter.mp hxk).2
            simp only [Bool.not_eq_true'] at hnm
            simp [hnm]
          · rw [List.mem_singleton] at hx1
            subst hx1
            simp only [Bool.and_eq_true, decide_eq_true_eq, not_and]
            intro _
            omega
        rw [hnone, if_neg hreg]
        refine ⟨_, rfl, ?_, ?_⟩
        · -- every pre-existing row for this email is gone
          intro o ho hmatch hcon
          rcases List.mem_append.mp hcon with hk | hr
          · have := (List.mem_filter.mp hk).2
            rw [hmatch] at this
            simp at this
          · rw [List.mem_singleton] at hr
            subst hr
            rw [← h1] at ho
            rcases List.mem_append.mp ho with hk2 | hr2
            · have := (List.mem_filter.mp hk2).2
              simp [emailMatches] at this
            · rw [List.mem_singleton] at hr2
              have : t1 = t0 := congrArg OTP.createdAt hr2
              omega
        · -- verifying any other code now fails
          intro users loginRequests c tv rid hc
          simp only [otpVerify]
          have hvn : findValidOtp
              (otps1.filter (fun o =>
                !(emailMatches o.email (normalizeEmail email))) ++
                [⟨id2, normalizeEmail email, code2, t1 + 600000, false, t1⟩])
              (normalizeEmail email) c tv = none := by
            rw [findValidOtp, List.find?_eq_none]
            intro x hx
            rcases List.mem_append.mp hx with hk | hr
            · have hnm := (List.mem_filter.mp hk).2
              simp only [Bool.not_eq_true'] at hnm
              simp [hnm]
            · rw [List.mem_singleton] at hr
              subst hr
              have hcc : (code2 == c) = false :=
                beq_eq_false_iff_ne.mpr (fun h => hc h.symm)
              simp [hcc]
          rw [hvn]

/-- Witness for C8 at a concrete registration and concrete times: the second
resend at +50 s is rate-limited, the resend at +60 s succeeds and the old
code no longer verifies. -/
theorem otpResend_spec_witness :
    (otpResend ⟨[], [⟨5, "t@x.com", "Tr One", "TR1", "D1"⟩], []⟩
        [⟨1, "t@x.com", "111111", 601000, false, 1000⟩] "t@x.com" 51000 2
        "222222" =
      .error ⟨"Please wait 1 minute before requesting a new OTP", 429⟩) ∧
    (∃ otps2, otpResend ⟨[], [⟨5, "t@x.com", "Tr One", "TR1", "D1"⟩], []⟩
        [⟨1, "t@x.com", "111111", 601000, false, 1000⟩] "t@x.com" 61000 2
        "222222" = .ok otps2 ∧
      (∀ o ∈ [(⟨1, "t@x.com", "111111", 601000, false, 1000⟩ : OTP)],
        emailMatches o.email (normalizeEmail "t@x.com") = true → o ∉ otps2) ∧
      (∀ (users : List User) (loginRequests : List UserLoginRequest)
          (c : String) (tv : Int) (rid : Nat), c ≠ "222222" →
        otpVerify ⟨[], [⟨5, "t@x.com", "Tr One", "TR1", "D1"⟩], []⟩ users
            loginRequests otps2 "t@x.com" c tv rid =
          .error ⟨"Invalid or expired OTP", 401⟩)) := by
  have h := otpResend_spec ⟨[], [⟨5, "t@x.com", "Tr One", "TR1", "D1"⟩], []⟩
    [] [⟨1, "t@x.com", "111111", 601000, false, 1000⟩] "t@x.com" 1000 51000 1 2
    "111111" "222222" (by rfl)
  have h2 := otpResend_spec ⟨[], [⟨5, "t@x.com", "Tr One", "TR1", "D1"⟩], []⟩
    [] [⟨1, "t@x.com", "111111", 601000, false, 1000⟩] "t@x.com" 1000 61000 1 2
    "111111" "222222" (by rfl)
  exact ⟨h.1 (by norm_num), h2.2 (by norm_num)⟩

/-- C9 counterexample: with a single existing match numbered 5 (table count
1, maximum number 5), the batch generator numbers its first match
count + 1 = 2, not max + 1 = 6, so batch numbers do not continue from the
current maximum match number. -/
theorem generateMatches_numbering_counterexample :
    ∃ ms, generateMatches ⟨1, .ROUND_ROBIN, "T20", 0⟩
        [⟨10, 1, 1, 0, 0, 0, 0⟩, ⟨11, 1, 2, 0, 0, 0, 0⟩]
        [⟨1, 5, "T20", none, 1, 2, 0, "TBD", 20, .UPCOMING, none, none⟩]
        ⟨none, none, none⟩ = .ok ms ∧
      ms.map (·.matchNumber) = [2] ∧
      maxMatchNumber
        [⟨1, 5, "T20", none, 1, 2, 0, "TBD", 20, .UPCOMING, none, none⟩] + 1 = 6 ∧
      (2 : Nat) ≠ 6 := by
  exact ⟨_, rfl, rfl, rfl, by decide⟩

/-- C9 (amended): every batch from `generateMatches` receives consecutive,
strictly increasing match numbers starting at (current number of Match rows)
+ 1 — this equals one more than the greatest existing matchNumber only when
the existing numbers occupy exactly 1..count; the single-match create route
(POST / on the match router) does continue from the maximum
(matchNumber = max + 1). -/
theorem generateMatches_numbering_spec
    (t : Tournament) (standings : List TournamentStanding)
    (existing : List Match) (p : GenerateParams) (ms : List Match)
    (h : generateMatches t standings existing p = .ok ms) :
    (∀ k mk, ms.get? k = some mk → mk.matchNumber = existing.length + 1 + k) ∧
    (∀ j k mj mk, j < k → ms.get? j = some mj → ms.get? k = some mk →
      mj.matchNumber < mk.matchNumber) ∧
    createMatchNumber existing = maxMatchNumber existing + 1 := by
  rw [generateMatches] at h
  split at h
  · simp at h
  · rw [Except.ok.injEq] at h
    subst h
    refine ⟨?_, ?_, rfl⟩
    · intro k mk hk
      rw [scheduleLoop_get?] at hk
      rcases Option.map_eq_some'.mp hk with ⟨pr, hpr, hmk⟩
      subst hmk
      rfl
    · intro j k mj mk hjk hj hk
      rw [scheduleLoop_get?] at hj hk
      rcases Option.map_eq_some'.mp hj with ⟨pr, hpr, hmj⟩
      rcases Option.map_eq_some'.mp hk with ⟨pr1, hpr1, hmk⟩
      subst hmj
      subst hmk
      show existing.length + 1 + j < existing.length + 1 + k
      omega

/-- Witness for the amended C9: a concrete 3-team batch after one existing
match is numbered 2, 3, 4 consecutively, and the single-create number is
max + 1. -/
theorem generateMatches_numbering_spec_witness :
    (∀ k mk,
      (match generateMatches ⟨1, .ROUND_ROBIN, "T20", 0⟩
          [⟨10, 1, 1, 0, 0, 0, 0⟩, ⟨11, 1, 2, 0, 0, 0, 0⟩, ⟨12, 1, 3, 0, 0, 0, 0⟩]
          [⟨1, 5, "T20", none, 1, 2, 0, "TBD", 20, .UPCOMING, none, none⟩]
          ⟨none, none, none⟩ with
        | .ok ms => ms
        | .error _ => []).get? k = some mk →
      mk.matchNumber = 1 + 1 + k) ∧
    createMatchNumber
      [⟨1, 5, "T20", none, 1, 2, 0, "TBD", 20, .UPCOMING, none, none⟩] = 6 := by
  have h := generateMatches_numbering_spec ⟨1, .ROUND_ROBIN, "T20", 0⟩
    [⟨10, 1, 1, 0, 0, 0, 0⟩, ⟨11, 1, 2, 0, 0, 0, 0⟩, ⟨12, 1, 3, 0, 0, 0, 0⟩]
    [⟨1, 5, "T20", none, 1, 2, 0, "TBD", 20, .UPCOMING, none, none⟩]
    ⟨none, none, none⟩ _ rfl
  exact ⟨h.1, h.2.2⟩

/-- C10: in the password-login route the approval gate applies only to the
ADMIN role: every stored user with a password hash whose role is USER or
SUPER_ADMIN is issued a signed token whenever the supplied password matches,
regardless of approvalStatus (no hypothesis on it). -/
theorem loginAdmin_approval_only_admin
    (users : List User) (email password : String) (u : User)
    (hfind : users.find? (fun v => v.email == email) = some u)
    (hpw : u.password = some password)
    (hrole : u.role = .USER ∨ u.role = .SUPER_ADMIN) :
    loginAdmin users email password = .ok (u.id, u.role) := by
  rw [loginAdmin]
  simp only [hfind, hpw]
  have hga : ¬ (u.role = .ADMIN ∧ u.approvalStatus ≠ .APPROVED) := by
    rcases hrole with h | h <;> simp [h]
  rw [if_neg hga, if_neg (fun hcon => hcon rfl)]

/-- Witness for C10: a PENDING USER-role principal with a stored password is
still issued a token by the password-login route. -/
theorem loginAdmin_approval_only_admin_witness :
    loginAdmin
        [⟨60, "a@x.com", "A", "B", .USER, none, .PENDING, some "pw12345678",
          none, none, none⟩]
        "a@x.com" "pw12345678" = .ok (60, .USER) :=
  loginAdmin_approval_only_admin
    [⟨60, "a@x.com", "A", "B", .USER, none, .PENDING, some "pw12345678",
      none, none, none⟩]
    "a@x.com" "pw12345678"
    ⟨60, "a@x.com", "A", "B", .USER, none, .PENDING, some "pw12345678",
      none, none, none⟩
    (by rfl) rfl (Or.inl rfl)

end CricketFiesta
